import Mathlib

/-!
# A shallow embedding of the `lxd-to-incus` migration orchestrator

This file embeds `cmd/lxd-to-incus/main.go` (the migration orchestrator of
the lxd-to-incus tool) in Lean and proves properties of the embedding.
Strings are modelled as Lean `String` (a list of characters); the Go byte
test `source[0] != '/'` coincides with the character test for the ASCII
paths involved.  External effects (daemon REST calls, file system calls,
subprocesses) are modelled as an environment of call results; the two
unbounded loops take a fuel parameter, whose exhaustion is a distinguished
"still running" outcome, not an error of the program.
-/

namespace LxdToIncus

/-! ## Go string primitives -/

/-- `strings.HasPrefix(s, p)` on character lists: `hasPref p s` is true when
`p` is a prefix of `s` (the pattern is the first argument). -/
def hasPref : List Char → List Char → Bool
  | [], _ => true
  | _ :: _, [] => false
  | p :: ps, c :: cs => p == c && hasPref ps cs

/-- `strings.Replace(s, old, new, 1)` on character lists: replace the first
occurrence of `old` in `s` by `new`.  As in Go, an empty `old` matches at the
start, so the result is `new ++ s`. -/
def replOnce (old new : List Char) : List Char → List Char
  | [] => if hasPref old [] then new else []
  | c :: cs =>
    if hasPref old (c :: cs) then new ++ (c :: cs).drop old.length
    else c :: replOnce old new cs

/-- Whether `pat` occurs in `s` as a contiguous substring (an empty pattern
occurs everywhere). -/
def containsSub (pat : List Char) : List Char → Bool
  | [] => hasPref pat []
  | c :: cs => hasPref pat (c :: cs) || containsSub pat cs

/-- `strings.HasPrefix(s, p)` on `String`. -/
def goHasPref (s p : String) : Bool := hasPref p.data s.data

/-- `strings.Replace(s, old, new, 1)` on `String`. -/
def goReplace1 (s old new : String) : String := ⟨replOnce old.data new.data s.data⟩

/-- Whether `sub` occurs in `s` as a contiguous substring. -/
def goContains (s sub : String) : Bool := containsSub sub.data s.data

lemma replOnce_of_hasPref (old new s : List Char) (h : hasPref old s = true) :
    replOnce old new s = new ++ s.drop old.length := by
  cases s with
  | nil =>
    cases old with
    | nil => simp [replOnce, hasPref]
    | cons p ps => simp [hasPref] at h
  | cons c cs => simp [replOnce, h]

lemma replOnce_of_not_contains (old new s : List Char) (h : containsSub old s = false) :
    replOnce old new s = s := by
  induction s with
  | nil =>
    unfold containsSub at h
    simp [replOnce, h]
  | cons c cs ih =>
    unfold containsSub at h
    rw [Bool.or_eq_false_iff] at h
    simp [replOnce, h.1, ih h.2]

/-- `strings.Replace` with count 1 leaves a string without any occurrence of
the pattern unchanged (on `String`). -/
lemma goReplace1_of_not_contains (s old new : String) (h : goContains s old = false) :
    goReplace1 s old new = s := by
  unfold goContains at h
  unfold goReplace1
  rw [replOnce_of_not_contains old.data new.data s.data h]

/-! ## Data model: paths and storage pools -/

/-- `DaemonPaths`: the filesystem roots of one side (fields read in main.go
as `.Daemon`, `.Logs`, `.Cache`). -/
structure DaemonPaths where
  daemon : String
  logs : String
  cache : String
deriving DecidableEq

/-- The fields of a storage pool that main.go lines 202-236 read: `Name`,
`Driver` and the `Config` map (modelled as an association list). -/
structure StoragePool where
  name : String
  driver : String
  config : List (String × String)
deriving DecidableEq

/-- Go map lookup `pool.Config[k]` with its `ok` flag: the first binding of
`k`, `none` when the key is absent. -/
def cfgGet (cfg : List (String × String)) (k : String) : Option String :=
  match cfg.find? (fun kv => kv.1 == k) with
  | some kv => some kv.2
  | none => none

/-! ## The configuration rewriter (main.go lines 168-237) -/

/-- The accumulators of main.go lines 168-169 and 201: `rbdRenamed`,
`rewriteStatements`, `rewriteCommands`. -/
structure RewriteState where
  rbdRenamed : List String
  rewriteStatements : List String
  rewriteCommands : List (List String)
deriving DecidableEq

/-- The argv of main.go line 219. -/
def renameCmd (cluster client rbdPool : String) : List String :=
  ["rbd", "rename", "--cluster", cluster, "--name", client,
   rbdPool ++ "/lxd_" ++ rbdPool, rbdPool ++ "/incus_" ++ rbdPool]

/-- main.go lines 214-217: `Config["ceph.osd.pool_name"]`, defaulting to the
pool's own name when the key is absent. -/
def resolvedRbdPool (pool : StoragePool) : String :=
  (cfgGet pool.config "ceph.osd.pool_name").getD pool.name

/-- main.go lines 203-224: for a ceph pool, emit the `rbd rename` command
unless the pool's `Name` is already in `rbdRenamed` (`util.ValueInSlice`). -/
def cephStep (st : RewriteState) (pool : StoragePool) : RewriteState :=
  if pool.driver = "ceph" then
    let cluster := (cfgGet pool.config "ceph.cluster_name").getD "ceph"
    let client := (cfgGet pool.config "ceph.user.name").getD "admin"
    let rbdPool := resolvedRbdPool pool
    if pool.name ∈ st.rbdRenamed then st
    else
      { st with
        rewriteCommands := st.rewriteCommands ++ [renameCmd cluster client rbdPool],
        rbdRenamed := st.rbdRenamed ++ [pool.name] }
  else st

/-- The SQL text of main.go line 236. -/
def sqlUpdate (n o : String) : String :=
  "UPDATE storage_pools_config SET value='" ++ n ++ "' WHERE value='" ++ o ++ "';"

/-- main.go lines 226-236: skip a pool whose `source` is empty, does not
start with `/`, or is not prefixed by the source daemon directory; otherwise
append one UPDATE statement with the prefix replaced (`strings.Replace`,
count 1).  A Go map read of an absent key yields `""`. -/
def sourceStep (sourceDaemon targetDaemon : String) (st : RewriteState) (pool : StoragePool) :
    RewriteState :=
  let src := (cfgGet pool.config "source").getD ""
  if src = "" ∨ src.data.head? ≠ some '/' then st
  else if goHasPref src sourceDaemon = false then st
  else
    let newSource := goReplace1 src sourceDaemon targetDaemon
    { st with rewriteStatements := st.rewriteStatements ++ [sqlUpdate newSource src] }

/-- The body of the loop of main.go lines 202-237 for one pool. -/
def poolStep (sourceDaemon targetDaemon : String) (st : RewriteState) (pool : StoragePool) :
    RewriteState :=
  sourceStep sourceDaemon targetDaemon (cephStep st pool) pool

/-- main.go lines 201-237: the whole rewrite-gathering loop, starting from
the empty accumulators. -/
def buildRewrites (pools : List StoragePool) (sourceDaemon targetDaemon : String) :
    RewriteState :=
  pools.foldl (poolStep sourceDaemon targetDaemon) ⟨[], [], []⟩

/-- The names of the ceph-driver pools, in order. -/
def cephNames (pools : List StoragePool) : List String :=
  (pools.filter (fun p => p.driver == "ceph")).map StoragePool.name

lemma cephStep_rewriteStatements (st : RewriteState) (p : StoragePool) :
    (cephStep st p).rewriteStatements = st.rewriteStatements := by
  unfold cephStep
  split
  · split
    · rfl
    · rfl
  · rfl

lemma sourceStep_rbdRenamed (sd td : String) (st : RewriteState) (p : StoragePool) :
    (sourceStep sd td st p).rbdRenamed = st.rbdRenamed := by
  simp only [sourceStep]
  split
  · rfl
  · split
    · rfl
    · rfl

lemma sourceStep_rewriteCommands (sd td : String) (st : RewriteState) (p : StoragePool) :
    (sourceStep sd td st p).rewriteCommands = st.rewriteCommands := by
  simp only [sourceStep]
  split
  · rfl
  · split
    · rfl
    · rfl

lemma cephStep_rbdRenamed (st : RewriteState) (p : StoragePool) :
    (cephStep st p).rbdRenamed =
      if p.driver = "ceph" ∧ p.name ∉ st.rbdRenamed then st.rbdRenamed ++ [p.name]
      else st.rbdRenamed := by
  unfold cephStep
  by_cases h : p.driver = "ceph"
  · by_cases hm : p.name ∈ st.rbdRenamed
    · simp [h, hm]
    · simp [h, hm]
  · simp [h]

lemma cephStep_rewriteCommands (st : RewriteState) (p : StoragePool) :
    (cephStep st p).rewriteCommands =
      if p.driver = "ceph" ∧ p.name ∉ st.rbdRenamed then
        st.rewriteCommands ++ [renameCmd ((cfgGet p.config "ceph.cluster_name").getD "ceph")
          ((cfgGet p.config "ceph.user.name").getD "admin") (resolvedRbdPool p)]
      else st.rewriteCommands := by
  unfold cephStep
  by_cases h : p.driver = "ceph"
  · by_cases hm : p.name ∈ st.rbdRenamed
    · simp [h, hm]
    · simp [h, hm]
  · simp [h]

lemma poolStep_rbdRenamed (sd td : String) (st : RewriteState) (p : StoragePool) :
    (poolStep sd td st p).rbdRenamed =
      if p.driver = "ceph" ∧ p.name ∉ st.rbdRenamed then st.rbdRenamed ++ [p.name]
      else st.rbdRenamed := by
  rw [poolStep, sourceStep_rbdRenamed, cephStep_rbdRenamed]

lemma poolStep_commands_length (sd td : String) (st : RewriteState) (p : StoragePool) :
    (poolStep sd td st p).rewriteCommands.length =
      if p.driver = "ceph" ∧ p.name ∉ st.rbdRenamed then st.rewriteCommands.length + 1
      else st.rewriteCommands.length := by
  rw [poolStep, sourceStep_rewriteCommands, cephStep_rewriteCommands]
  split
  · simp
  · rfl

/-- The dedup invariant of the rewrite-gathering loop: the `rbdRenamed`
accumulator collects exactly the names of the ceph pools seen, and one
rename command is appended per ceph pool name not seen before. -/
lemma foldl_poolStep_inv (sd td : String) (pools : List StoragePool) :
    ∀ st : RewriteState,
      (pools.foldl (poolStep sd td) st).rbdRenamed.toFinset
          = st.rbdRenamed.toFinset ∪ (cephNames pools).toFinset
        ∧ (pools.foldl (poolStep sd td) st).rewriteCommands.length
          = st.rewriteCommands.length
              + ((cephNames pools).toFinset \ st.rbdRenamed.toFinset).card := by
  induction pools with
  | nil => intro st; simp [cephNames]
  | cons p rest ih =>
    intro st
    have hfold : (p :: rest).foldl (poolStep sd td) st
        = rest.foldl (poolStep sd td) (poolStep sd td st p) := rfl
    obtain ⟨ih1, ih2⟩ := ih (poolStep sd td st p)
    by_cases hc : p.driver = "ceph"
    · have hnames : cephNames (p :: rest) = p.name :: cephNames rest := by
        simp [cephNames, List.filter_cons, hc]
      by_cases hm : p.name ∈ st.rbdRenamed
      · have hren : (poolStep sd td st p).rbdRenamed = st.rbdRenamed := by
          rw [poolStep_rbdRenamed, if_neg (by tauto)]
        have hcmd : (poolStep sd td st p).rewriteCommands.length
            = st.rewriteCommands.length := by
          rw [poolStep_commands_length, if_neg (by tauto)]
        rw [hfold]
        constructor
        · rw [ih1, hren, hnames]
          simp only [List.toFinset_cons]
          rw [Finset.union_insert, Finset.insert_eq_self.mpr]
          exact Finset.mem_union_left _ (List.mem_toFinset.mpr hm)
        · rw [ih2, hren, hcmd, hnames]
          simp only [List.toFinset_cons]
          rw [Finset.insert_sdiff_of_mem _ (List.mem_toFinset.mpr hm)]
      · have hren : (poolStep sd td st p).rbdRenamed = st.rbdRenamed ++ [p.name] := by
          rw [poolStep_rbdRenamed, if_pos ⟨hc, hm⟩]
        have hcmd : (poolStep sd td st p).rewriteCommands.length
            = st.rewriteCommands.length + 1 := by
          rw [poolStep_commands_length, if_pos ⟨hc, hm⟩]
        have hmf : p.name ∉ st.rbdRenamed.toFinset := fun hx => hm (List.mem_toFinset.mp hx)
        rw [hfold]
        constructor
        · rw [ih1, hren, hnames]
          simp only [List.toFinset_cons, List.toFinset_append]
          ext x
          simp only [Finset.mem_union, Finset.mem_insert, List.mem_toFinset, List.mem_cons,
            List.not_mem_nil, or_false]
          tauto
        · rw [ih2, hren, hcmd, hnames]
          have happ : (st.rbdRenamed ++ [p.name]).toFinset
              = insert p.name st.rbdRenamed.toFinset := by
            ext x
            simp only [List.mem_toFinset, List.mem_append, List.mem_cons, List.not_mem_nil,
              or_false, Finset.mem_insert]
            tauto
          rw [happ, List.toFinset_cons, Finset.sdiff_insert, Finset.insert_sdiff_of_not_mem _ hmf]
          by_cases hx : p.name ∈ (cephNames rest).toFinset \ st.rbdRenamed.toFinset
          · have h1 := Finset.card_erase_add_one hx
            have h2 : (insert p.name ((cephNames rest).toFinset \ st.rbdRenamed.toFinset)).card
                = ((cephNames rest).toFinset \ st.rbdRenamed.toFinset).card :=
              congrArg Finset.card (Finset.insert_eq_self.mpr hx)
            omega
          · have h1 : (((cephNames rest).toFinset \ st.rbdRenamed.toFinset).erase p.name).card
                = ((cephNames rest).toFinset \ st.rbdRenamed.toFinset).card :=
              congrArg Finset.card (Finset.erase_eq_of_not_mem hx)
            have h2 := Finset.card_insert_of_not_mem hx
            omega
    · have hnames : cephNames (p :: rest) = cephNames rest := by
        simp [cephNames, List.filter_cons, hc]
      have hren : (poolStep sd td st p).rbdRenamed = st.rbdRenamed := by
        rw [poolStep_rbdRenamed, if_neg (by tauto)]
      have hcmd : (poolStep sd td st p).rewriteCommands.length
          = st.rewriteCommands.length := by
        rw [poolStep_commands_length, if_neg (by tauto)]
      rw [hfold]
      exact ⟨by rw [ih1, hren, hnames], by rw [ih2, hren, hcmd, hnames]⟩

lemma sourceStep_id (sd td : String) (st : RewriteState) (p : StoragePool)
    (h : (cfgGet p.config "source").getD "" = ""
        ∨ ((cfgGet p.config "source").getD "").data.head? ≠ some '/'
        ∨ goHasPref ((cfgGet p.config "source").getD "") sd = false) :
    sourceStep sd td st p = st := by
  simp only [sourceStep]
  rcases h with h | h | h
  · rw [if_pos (Or.inl h)]
  · rw [if_pos (Or.inr h)]
  · by_cases h2 : (cfgGet p.config "source").getD "" = ""
        ∨ ((cfgGet p.config "source").getD "").data.head? ≠ some '/'
    · rw [if_pos h2]
    · rw [if_neg h2, if_pos h]

lemma cephStep_id (st : RewriteState) (p : StoragePool) (h : p.driver ≠ "ceph") :
    cephStep st p = st := by
  simp [cephStep, h]

lemma sourceStep_append (sd td : String) (st : RewriteState) (p : StoragePool) (src : String)
    (hs : cfgGet p.config "source" = some src)
    (h0 : src.data.head? = some '/')
    (hp : goHasPref src sd = true) :
    (sourceStep sd td st p).rewriteStatements
      = st.rewriteStatements ++ [sqlUpdate (goReplace1 src sd td) src] := by
  have hne : ¬(src = "" ∨ src.data.head? ≠ some '/') := by
    push_neg
    refine ⟨?_, h0⟩
    intro h
    subst h
    exact absurd h0 (by decide)
  simp only [sourceStep, hs, Option.getD_some]
  rw [if_neg hne, if_neg (by simp [hp])]

lemma goReplace1_pref (src sd td : String) (hp : goHasPref src sd = true) :
    goReplace1 src sd td = String.mk (td.data ++ src.data.drop sd.data.length) := by
  unfold goHasPref at hp
  unfold goReplace1
  rw [replOnce_of_hasPref _ _ _ hp]

/-- C1 (amended): the number of `rbd rename` commands equals the number of
distinct pool **Names** among the pools with `Driver == "ceph"` — the code of
main.go lines 220-223 deduplicates by `pool.Name`, not by the resolved RBD
pool name — and in particular two ceph pool descriptors with different Names
but the same resolved RBD pool name yield **two** rename commands. -/
theorem rbdRenameDedupByPoolName :
    (∀ (pools : List StoragePool) (sd td : String),
        (buildRewrites pools sd td).rewriteCommands.length = (cephNames pools).toFinset.card)
    ∧ (∀ (p q : StoragePool) (sd td : String),
        p.driver = "ceph" → q.driver = "ceph" → p.name ≠ q.name →
        resolvedRbdPool p = resolvedRbdPool q →
        (buildRewrites [p, q] sd td).rewriteCommands.length = 2) := by
  have key : ∀ (pools : List StoragePool) (sd td : String),
      (buildRewrites pools sd td).rewriteCommands.length = (cephNames pools).toFinset.card := by
    intro pools sd td
    have h := (foldl_poolStep_inv sd td pools ⟨[], [], []⟩).2
    simpa [buildRewrites] using h
  refine ⟨key, ?_⟩
  intro p q sd td hp hq hne _
  rw [key]
  have hl : cephNames [p, q] = [p.name, q.name] := by
    simp [cephNames, List.filter_cons, hp, hq]
  rw [hl]
  have hfin : ([p.name, q.name] : List String).toFinset = {p.name, q.name} := by
    simp
  rw [hfin, Finset.card_insert_of_not_mem (by simp [hne]), Finset.card_singleton]

/-- C1, counterexample to the claim as stated: two ceph pools with different
Names and the same resolved RBD pool name (`ceph.osd.pool_name = "rbd"`)
produce two rename commands, not one. -/
theorem rbdRenameDedup_counterexample :
    (buildRewrites [⟨"pool-a", "ceph", [("ceph.osd.pool_name", "rbd")]⟩,
        ⟨"pool-b", "ceph", [("ceph.osd.pool_name", "rbd")]⟩] "/s" "/t").rewriteCommands.length = 2
    ∧ resolvedRbdPool ⟨"pool-a", "ceph", [("ceph.osd.pool_name", "rbd")]⟩
        = resolvedRbdPool ⟨"pool-b", "ceph", [("ceph.osd.pool_name", "rbd")]⟩ := by
  exact ⟨rfl, rfl⟩

/-- C3 (amended): a pool whose `source` is empty, relative, or not prefixed
by the source daemon directory contributes no SQL statement, and — when its
driver is not ceph — leaves the accumulators entirely unchanged.  (A ceph
pool still contributes its rename command regardless of its source path;
see the counterexample.)  The second conjunct instantiates the first at a
zfs pool with a dataset (non-path) source. -/
theorem untouchedSourcePools :
    (∀ (sd td : String) (st : RewriteState) (p : StoragePool),
        ((cfgGet p.config "source").getD "" = ""
            ∨ ((cfgGet p.config "source").getD "").data.head? ≠ some '/'
            ∨ goHasPref ((cfgGet p.config "source").getD "") sd = false) →
        (poolStep sd td st p).rewriteStatements = st.rewriteStatements
          ∧ (p.driver ≠ "ceph" → poolStep sd td st p = st))
    ∧ buildRewrites [⟨"a", "zfs", [("source", "tank/lxd")]⟩] "/var/lib/lxd" "/var/lib/incus"
        = ⟨[], [], []⟩ := by
  constructor
  · intro sd td st p h
    constructor
    · rw [poolStep, sourceStep_id sd td _ p h, cephStep_rewriteStatements]
    · intro hcd
      rw [poolStep, sourceStep_id sd td _ p h, cephStep_id st p hcd]
  · rfl

/-- C3, counterexample to the claim as stated: a ceph pool whose `source` is
empty (the key is absent) still emits its `rbd rename` command, so the
rewrite step does not emit zero commands for such a pool. -/
theorem untouchedSourcePools_counterexample :
    (cfgGet (StoragePool.mk "a" "ceph" []).config "source").getD "" = ""
      ∧ (buildRewrites [⟨"a", "ceph", []⟩] "/s" "/t").rewriteCommands
          = [renameCmd "ceph" "admin" "a"] := by
  exact ⟨rfl, rfl⟩

/-- C4: for a pool whose `source` is an absolute path prefixed by the source
daemon directory, the loop body appends exactly one statement
`UPDATE storage_pools_config SET value='<new>' WHERE value='<old>';` where
`<new>` is `<old>` with the source-root prefix replaced by the target root.
The second conjunct is the spec's round-trip example verbatim. -/
theorem updateStatementForPrefixedSource :
    (∀ (sd td : String) (st : RewriteState) (p : StoragePool) (src : String),
        cfgGet p.config "source" = some src →
        src.data.head? = some '/' →
        goHasPref src sd = true →
        (poolStep sd td st p).rewriteStatements
          = st.rewriteStatements
              ++ [sqlUpdate (String.mk (td.data ++ src.data.drop sd.data.length)) src])
    ∧ (buildRewrites [⟨"a", "dir", [("source", "/var/lib/old/disks/a")]⟩]
          "/var/lib/old" "/var/lib/new").rewriteStatements
        = ["UPDATE storage_pools_config SET value='/var/lib/new/disks/a' WHERE value='/var/lib/old/disks/a';"] := by
  constructor
  · intro sd td st p src hs h0 hp
    rw [poolStep, sourceStep_append sd td _ p src hs h0 hp, cephStep_rewriteStatements,
      goReplace1_pref src sd td hp]
  · rfl

/-! ## The orchestrator (cmdMigrate.Run, main.go lines 81-611)

The run is modelled as a function from the command-line flags and an
environment of external-call results to a pair of (the ordered trace of
external actions performed, the outcome).  Each fallible external call's
result is a field of the environment; calls a loop makes repeatedly are
indexed by the call number.  A Go method call on the nil `srcClient`
interface value is a runtime panic, modelled as the `Halt.panicked`
outcome. -/

deriving instance DecidableEq for Except

/-- An observable external action of the run, in program order. -/
inductive Ev where
  | lookSource
  | lookTarget
  | connectSource
  | srcGetServer
  | connectTarget
  | validate
  | pathsSource
  | pathsTarget
  | gatherPools
  | srcGetServerOvn
  | ovsQuery
  | askMigrate
  | evacuateMember (name : String)
  | stopSource
  | stopTarget
  | unmountPre (path : String)
  | wipeRemove (path : String)
  | runCmd (argv : List String)
  | mkdirAll (path : String)
  | bindMount (src tgt : String)
  | unmountDetach (path : String)
  | migrateDB (path : String)
  | writePatch (path content : String)
  | removeIgnored (path : String)
  | removeAllDir (path : String)
  | readDirEv (path : String)
  | readLinkEv (path : String)
  | removeFileEv (path : String)
  | symlinkEv (target path : String)
  | startTarget
  | askClusterStarted
  | sleepWarmup
  | pollRound (n : Nat)
  | sleepRetry
  | validateTarget
  | restoreMember (name : String)
  | askUninstall
  | purgeSource
deriving DecidableEq

/-- How a run ends when it does not return nil: an error return
(`Halt.fail`), `os.Exit` (`Halt.exited`), a runtime panic from a method
call on a nil interface (`Halt.panicked`), or the fuel horizon of one of
the two unbounded loops (`Halt.fuelOut`: the real code is still looping,
this is not a result the code can produce). -/
inductive Halt where
  | fail (msg : String)
  | exited (code : Nat)
  | panicked (site : String)
  | fuelOut
deriving DecidableEq

/-- A step of the run: the actions performed and either a value or a halt. -/
abbrev Step (α : Type) := List Ev × Except Halt α

def stepPure {α : Type} (a : α) : Step α := ([], .ok a)

def stepBind {α β : Type} (x : Step α) (f : α → Step β) : Step β :=
  match x with
  | (t, .error h) => (t, .error h)
  | (t, .ok a) =>
    match f a with
    | (t2, r) => (t ++ t2, r)

/-- Lift a fallible external call: emit its events; on error, wrap the
message the way the corresponding `fmt.Errorf` does and halt. -/
def liftE {α : Type} (evs : List Ev) (wrap : String → String) (r : Except String α) : Step α :=
  match r with
  | .ok a => (evs, .ok a)
  | .error e => (evs, .error (.fail (wrap e)))

/-- The source server info main.go reads: `Environment.ServerClustered`
(line 139) and `Config["network.ovn.northbound_connection"]` (line 246;
`none` models a missing key or a non-string value, whose type assertion
yields ok = false). -/
structure SrcServerInfo where
  serverClustered : Bool
  ovnNB : Option String
deriving DecidableEq

/-- The behaviour of the connected source client: the result of each call
main.go makes on it.  Two calls to the same endpoint are separate fields
(the daemon may answer differently). -/
structure SrcClientB where
  getServer : Except String SrcServerInfo
  getServerOvn : Except String SrcServerInfo
  getStoragePools : Except String (List StoragePool)
  getClusterMembersPools : Except String (List String)
  memberPoolNames : String → Except String (List String)
  memberPool : String → String → Except String StoragePool
  getClusterMembersEvac : Except String (List String)
  evacuate : String → Except String Unit
  evacuateWait : String → Except String Unit

/-- One cluster member as the convergence loop reads it: `ServerName`,
`Status`, `Message` (main.go lines 532-548). -/
structure ClusterMemberStatus where
  serverName : String
  status : String
  message : String
deriving DecidableEq

/-- The behaviour of the connected target client.  The convergence loop's
calls are indexed by the poll round. -/
structure TgtClientB where
  getClusterMembers : Nat → Except String (List ClusterMemberStatus)
  memberGetServer : Nat → String → Except String String
  getServerCheck : Except String Unit
  getClusterMembersRestore : Except String (List String)
  restore : String → Except String Unit
  restoreWait : String → Except String Unit

/-- Result of `os.RemoveAll`: the code tolerates `IsNotExist` errors. -/
inductive RemoveRes where
  | ok
  | notExist
  | failed (msg : String)

/-- A directory entry as read at main.go line 471-474. -/
structure DirEntry where
  name : String
  isSymlink : Bool
deriving DecidableEq

/-- Result of `os.ReadDir`: the code tolerates `IsNotExist`. -/
inductive ReadDirRes where
  | ok (entries : List DirEntry)
  | notExist
  | failed (msg : String)

/-- The command-line flags of cmdMigrate (main.go lines 67-68). -/
structure Flags where
  yes : Bool
  clusterMember : Bool
deriving DecidableEq

/-- The environment: the result of every external call the run can make.
Discovery only reads `Present()` of each candidate, so the candidate lists
are lists of booleans and the behaviours of the one discovered source and
target are the `src*`/`tgt*` fields.  `validateRes`, `ovnConvert`,
`ovsConvert` and `migrateDatabase` stand for functions of this package
whose files are not under src/ (only their call sites are); they are
opaque external behaviours here.  The results of `source.Stop()` and
`target.Stop()` (main.go lines 344/351) are not fields of this structure:
the code formats those two errors but discards them (the `fmt.Errorf`
value on lines 346/353 is never assigned to anything), so no later
expression of Run can mention them; they are instead the separate
`stopResults` argument of `run` below. -/
structure Env where
  euidRoot : Bool
  sourcesPresent : List Bool
  targetsPresent : List Bool
  srcConnect : Except String SrcClientB
  srcPaths : Except String DaemonPaths
  srcPurge : Except String Unit
  validateRes : Except String Unit
  tgtConnect : Except String TgtClientB
  tgtPaths : Except String DaemonPaths
  tgtStart : Except String Unit
  ovsVsctlGet : Except String String
  ovnConvert : String → String → Except String (List (List String))
  ovsConvert : Except String (List (List String))
  askMigrate : Except String Bool
  clusterNoEvacuate : Bool
  removeAll : String → RemoveRes
  runCommand : List String → Except String Unit
  isMountPoint : String → Bool
  mkdirAll : String → Except String Unit
  mountBind : String → String → Except String Unit
  unmountDetach : String → Except String Unit
  migrateDatabase : Except String Unit
  writeFile : String → String → Except String Unit
  readDir : String → ReadDirRes
  readLink : String → Except String String
  removeFile : String → Except String Unit
  symlink : String → String → Except String Unit
  askStartedAll : Nat → Except String Bool
  askUninstall : Except String Bool

/-- main.go lines 94-101 / 112-119: whether some candidate is present. -/
def firstPresent : List Bool → Bool
  | [] => false
  | b :: rest => b || firstPresent rest

/-- `filepath.Join` for the clean, slash-free parts used here. -/
def pathJoin (a b : String) : String := a ++ "/" ++ b

/-- `strings.Replace(out, "\"", "", -1)`: remove every double quote. -/
def removeQuotes (s : String) : String := ⟨s.data.filter (fun c => c != '"')⟩

def isSpaceChar (c : Char) : Bool := c == ' ' || c == '\t' || c == '\n' || c == '\r'

/-- `strings.TrimSpace` (the trimmed outputs here are ASCII). -/
def trimSpace (s : String) : String :=
  ⟨((s.data.dropWhile isSpaceChar).reverse.dropWhile isSpaceChar).reverse⟩

/-- main.go lines 184-198, inner loop: fetch each named pool of a member. -/
def memberPoolFetch (cl : SrcClientB) (m : String) : List String → Except String (List StoragePool)
  | [] => .ok []
  | n :: rest =>
    match cl.memberPool m n with
    | .error e => .error ("Couldn't get storage pool: " ++ e)
    | .ok p =>
      match memberPoolFetch cl m rest with
      | .error e => .error e
      | .ok ps => .ok (p :: ps)

/-- main.go lines 184-198, outer loop over the cluster members. -/
def clusteredPoolFetch (cl : SrcClientB) : List String → Except String (List StoragePool)
  | [] => .ok []
  | m :: rest =>
    match cl.memberPoolNames m with
    | .error e => .error ("Couldn't list storage pools: " ++ e)
    | .ok names =>
      match memberPoolFetch cl m names with
      | .error e => .error e
      | .ok ps =>
        match clusteredPoolFetch cl rest with
        | .error e => .error e
        | .ok ps2 => .ok (ps ++ ps2)

/-- main.go lines 327-339: evacuate each member, waiting on each operation;
the first failure aborts the run. -/
def evacuateLoop (cl : SrcClientB) : List String → Step Unit
  | [] => stepPure ()
  | m :: rest =>
    stepBind (liftE [Ev.evacuateMember m]
        (fun e => "Failed to stop workloads \"" ++ m ++ "\": " ++ e) (cl.evacuate m)) fun _ =>
    stepBind (liftE [] (fun e => "Failed to stop workloads \"" ++ m ++ "\": " ++ e)
        (cl.evacuateWait m)) fun _ =>
    evacuateLoop cl rest

/-- main.go lines 438-443: run the accumulated rewrite commands in order;
an error is returned unwrapped. -/
def runCmds (env : Env) : List (List String) → Step Unit
  | [] => stepPure ()
  | cmd :: rest =>
    stepBind (liftE [Ev.runCmd cmd] id (env.runCommand cmd)) fun _ =>
    runCmds env rest

/-- `os.RemoveAll` with the code's `IsNotExist` tolerance
(main.go lines 364-377 and 454-459). -/
def removeAllStep (env : Env) (ev : Ev) (wrap : String → String) (p : String) : Step Unit :=
  match env.removeAll p with
  | .ok => ([ev], .ok ())
  | .notExist => ([ev], .ok ())
  | .failed e => ([ev], .error (.fail (wrap e)))

/-- main.go lines 392-418: move the daemon directory.  When the source
daemon directory is a mountpoint: create the target directory, bind-mount
the source onto it, lazily detach the source.  Otherwise run `mv`. -/
def moveDaemonStep (env : Env) (sourcePaths targetPaths : DaemonPaths) : Step Unit :=
  if env.isMountPoint sourcePaths.daemon then
    stepBind (liftE [Ev.mkdirAll targetPaths.daemon]
        (fun e => "Failed to create target directory: " ++ e)
        (env.mkdirAll targetPaths.daemon)) fun _ =>
    stepBind (liftE [Ev.bindMount sourcePaths.daemon targetPaths.daemon]
        (fun e => "Failed to bind mount \"" ++ sourcePaths.daemon ++ "\" to \""
          ++ targetPaths.daemon ++ "\": " ++ e)
        (env.mountBind sourcePaths.daemon targetPaths.daemon)) fun _ =>
    liftE [Ev.unmountDetach sourcePaths.daemon]
      (fun e => "Failed to unmount source mount \"" ++ sourcePaths.daemon ++ "\": " ++ e)
      (env.unmountDetach sourcePaths.daemon)
  else
    liftE [Ev.runCmd ["mv", sourcePaths.daemon, targetPaths.daemon]]
      (fun e => "Failed to move \"" ++ sourcePaths.daemon ++ "\" to \""
        ++ targetPaths.daemon ++ "\": " ++ e)
      (env.runCommand ["mv", sourcePaths.daemon, targetPaths.daemon])

/-- main.go lines 474-492: repair one directory entry; non-symlinks are
skipped, a symlink is re-created with `sourcePaths.Daemon` replaced by
`targetPaths.Daemon` in its target (`strings.Replace`, count 1). -/
def cleanupEntry (env : Env) (sd td dirPath : String) (e : DirEntry) : Step Unit :=
  if e.isSymlink = false then stepPure ()
  else
    let srcPath := pathJoin dirPath e.name
    stepBind (liftE [Ev.readLinkEv srcPath]
        (fun m => "Failed to resolve symlink \"" ++ srcPath ++ "\": " ++ m)
        (env.readLink srcPath)) fun oldTarget =>
    let newTarget := goReplace1 oldTarget sd td
    stepBind (liftE [Ev.removeFileEv srcPath]
        (fun m => "Failed to delete symlink \"" ++ srcPath ++ "\": " ++ m)
        (env.removeFile srcPath)) fun _ =>
    liftE [Ev.symlinkEv newTarget srcPath]
      (fun m => "Failed to create symlink \"" ++ srcPath ++ "\": " ++ m)
      (env.symlink newTarget srcPath)

def cleanupEntries (env : Env) (sd td dirPath : String) : List DirEntry → Step Unit
  | [] => stepPure ()
  | e :: rest =>
    stepBind (cleanupEntry env sd td dirPath e) fun _ =>
    cleanupEntries env sd td dirPath rest

/-- main.go lines 461-494: per storage directory, read its entries
(tolerating a missing directory) and repair each symlink entry. -/
def cleanupSymlinkDirs (env : Env) (sd td : String) : List String → Step Unit
  | [] => stepPure ()
  | d :: rest =>
    let dirPath := pathJoin td d
    match env.readDir dirPath with
    | .notExist =>
      stepBind ([Ev.readDirEv dirPath], .ok ()) fun _ =>
      cleanupSymlinkDirs env sd td rest
    | .failed e =>
      ([Ev.readDirEv dirPath], .error (.fail ("Failed to read entries in \"" ++ dirPath ++ "\": " ++ e)))
    | .ok entries =>
      stepBind ([Ev.readDirEv dirPath], .ok ()) fun _ =>
      stepBind (cleanupEntries env sd td dirPath entries) fun _ =>
      cleanupSymlinkDirs env sd td rest

/-- main.go lines 532-548: one member's health check: its server info must
answer and report `incus`, and `(Status, Message)` must be one of the two
accepted literal pairs. -/
def memberCheck (getInfo : String → Except String String) (m : ClusterMemberStatus) : Bool :=
  match getInfo m.serverName with
  | .error _ => false
  | .ok impl =>
    if impl ≠ "incus" then false
    else if m.status = "Evacuated" ∧ m.message = "Unavailable due to maintenance" then true
    else if m.status = "Online" ∧ m.message = "Fully operational" then true
    else false

/-- main.go lines 531-549: the whole round is ready only if every member
passes `memberCheck`. -/
def roundReady (getInfo : String → Except String String) : List ClusterMemberStatus → Bool
  | [] => true
  | m :: rest => memberCheck getInfo m && roundReady getInfo rest

/-- One poll round of main.go lines 524-557: a failed member-list fetch
counts as a failed round (line 526-529). -/
def convergeStep (tc : TgtClientB) (n : Nat) : Bool :=
  match tc.getClusterMembers n with
  | .error _ => false
  | .ok members => roundReady (tc.memberGetServer n) members

/-- main.go lines 524-557: the convergence wait loop.  A failed round
sleeps the fixed interval and retries; the loop has no error return and no
retry bound — `fuel` is only the observation horizon of the model, and its
exhaustion (`Halt.fuelOut`) means the code is still looping. -/
def convergeWait (tc : TgtClientB) : Nat → Nat → Step Unit
  | _, 0 => ([], .error .fuelOut)
  | n, fuel + 1 =>
    if convergeStep tc n then ([Ev.pollRound n], .ok ())
    else stepBind ([Ev.pollRound n, Ev.sleepRetry], .ok ()) fun _ => convergeWait tc (n + 1) fuel

/-- main.go lines 508-515: ask until the operator answers yes without error. -/
def askStartedLoop (env : Env) : Nat → Nat → Step Unit
  | _, 0 => ([], .error .fuelOut)
  | n, fuel + 1 =>
    match env.askStartedAll n with
    | .ok true => ([Ev.askClusterStarted], .ok ())
    | _ => stepBind ([Ev.askClusterStarted], .ok ()) fun _ => askStartedLoop env (n + 1) fuel

/-- main.go lines 576-588: restore each member, waiting on each operation. -/
def restoreLoop (tc : TgtClientB) : List String → Step Unit
  | [] => stepPure ()
  | m :: rest =>
    stepBind (liftE [Ev.restoreMember m]
        (fun e => "Failed to restore \"" ++ m ++ "\": " ++ e) (tc.restore m)) fun _ =>
    stepBind (liftE [] (fun e => "Failed to restore \"" ++ m ++ "\": " ++ e)
        (tc.restoreWait m)) fun _ =>
    restoreLoop tc rest

/-- The body of `cmdMigrate.Run` (main.go lines 81-611), as a function of
the flags, the environment of external-call results, and the fuel for the
two unbounded loops.  The trace lists the external actions in program
order; the outcome is `.ok ()` exactly when Run returns nil.  The results
of the two daemon-stop calls do not appear: see `run`. -/
def runBody (flags : Flags) (env : Env) (fuel : Nat) : Step Unit :=
  -- lines 86-89: must be root
  if env.euidRoot = false then ([], .error (.fail "This tool must be run as root")) else
  -- lines 91-107: discover the source
  stepBind ([Ev.lookSource],
    if firstPresent env.sourcesPresent then .ok ()
    else .error (.fail "No source server could be found")) fun _ =>
  -- lines 109-123: discover the target
  stepBind ([Ev.lookTarget],
    if firstPresent env.targetsPresent then .ok ()
    else .error (.fail "No target server could be found")) fun _ =>
  -- lines 125-140: `clustered := c.flagClusterMember`; on the primary
  -- invocation only, connect the source client and read its clustered flag.
  stepBind
    (if flags.clusterMember then stepPure ((none : Option SrcClientB), flags.clusterMember)
     else
       stepBind (liftE [Ev.connectSource]
           (fun e => "Failed to connect to the source: " ++ e) env.srcConnect) fun cl =>
       stepBind (liftE [Ev.srcGetServer]
           (fun e => "Failed to get source server info: " ++ e) cl.getServer) fun info =>
       stepPure (some cl, info.serverClustered)) fun sc =>
  -- lines 142-146
  stepBind (liftE [Ev.connectTarget]
      (fun e => "Failed to connect to the target: " ++ e) env.tgtConnect) fun tc =>
  -- lines 148-154
  stepBind (if flags.clusterMember then stepPure ()
      else liftE [Ev.validate] id env.validateRes) fun _ =>
  -- lines 156-165
  stepBind (liftE [Ev.pathsSource]
      (fun e => "Failed to get source paths: " ++ e) env.srcPaths) fun sourcePaths =>
  stepBind (liftE [Ev.pathsTarget]
      (fun e => "Failed to get target paths: " ++ e) env.tgtPaths) fun targetPaths =>
  -- lines 167-238: gather the storage pools (primary only) and fold them
  -- through the rewrite loop
  stepBind
    (if flags.clusterMember then stepPure (⟨[], [], []⟩ : RewriteState)
     else
       stepBind
         (match sc.1 with
          | none => ([Ev.gatherPools], .error (.panicked "srcClient"))
          | some cl =>
            if sc.2 = false then
              liftE [Ev.gatherPools]
                (fun e => "Couldn't list storage pools: " ++ e) cl.getStoragePools
            else
              match cl.getClusterMembersPools with
              | .error _ =>
                ([Ev.gatherPools], .error (.fail "Failed to retrieve the list of cluster members"))
              | .ok members =>
                liftE [Ev.gatherPools] id (clusteredPoolFetch cl members)) fun storagePools =>
       stepPure (buildRewrites storagePools sourcePaths.daemon targetPaths.daemon)) fun rw =>
  -- lines 240-244: srcClient.GetServer() — on a `--cluster-member`
  -- invocation srcClient still holds its zero value (a nil interface), so
  -- this method call panics.
  stepBind
    (match sc.1 with
     | none => ([Ev.srcGetServerOvn], .error (.panicked "srcClient.GetServer"))
     | some cl => liftE [Ev.srcGetServerOvn]
         (fun e => "Failed to get source server info: " ++ e) cl.getServerOvn) fun info2 =>
  -- lines 246-270: OVN/OVS conversion commands
  stepBind
    (match info2.ovnNB with
     | some nb =>
       if nb ≠ "" then
         stepBind
           (if flags.clusterMember = false then
              stepBind (liftE [Ev.ovsQuery]
                  (fun e => "Failed to get OVN southbound database address: " ++ e)
                  env.ovsVsctlGet) fun out =>
              liftE [] (fun e => "Failed to prepare OVN conversion: " ++ e)
                (env.ovnConvert nb (trimSpace (removeQuotes out)))
            else stepPure []) fun cmds1 =>
         stepBind (liftE [] (fun e => "Failed to prepare OVS conversion: " ++ e)
             env.ovsConvert) fun cmds2 =>
         stepPure (rw.rewriteCommands ++ cmds1 ++ cmds2)
       else stepPure rw.rewriteCommands
     | none => stepPure rw.rewriteCommands) fun rewriteCommands =>
  -- lines 272-316: interactive confirmation; declining exits with code 1
  stepBind
    (if flags.clusterMember = false ∧ flags.yes = false then
       match env.askMigrate with
       | .error e => ([Ev.askMigrate], .error (.fail e))
       | .ok true => ([Ev.askMigrate], .ok ())
       | .ok false => ([Ev.askMigrate], .error (.exited 1))
     else stepPure ()) fun _ =>
  -- lines 318-340: cluster evacuation
  stepBind
    (if flags.clusterMember = false ∧ sc.2 = true ∧ env.clusterNoEvacuate = false then
       match sc.1 with
       | none => ([], .error (.panicked "srcClient.GetClusterMembers"))
       | some cl =>
         match cl.getClusterMembersEvac with
         | .error _ => ([], .error (.fail "Failed to retrieve the list of cluster members"))
         | .ok members => evacuateLoop cl members
     else stepPure ()) fun _ =>
  -- lines 342-354: stop source, stop target.  The code checks each error
  -- only to format it with fmt.Errorf and discards the formatted value, so
  -- a stop failure changes neither the control flow nor the return value;
  -- only the calls themselves are observable.
  stepBind ([Ev.stopSource], .ok ()) fun _ =>
  stepBind ([Ev.stopTarget], .ok ()) fun _ =>
  -- lines 356-359: best-effort unmounts, results ignored
  stepBind ([Ev.unmountPre (pathJoin targetPaths.daemon "guestapi"),
      Ev.unmountPre (pathJoin targetPaths.daemon "shmounts")], .ok ()) fun _ =>
  -- lines 361-377: wipe the target
  stepBind (removeAllStep env (Ev.wipeRemove targetPaths.logs)
      (fun e => "Failed to remove \"" ++ targetPaths.logs ++ "\": " ++ e)
      targetPaths.logs) fun _ =>
  stepBind (removeAllStep env (Ev.wipeRemove targetPaths.cache)
      (fun e => "Failed to remove \"" ++ targetPaths.cache ++ "\": " ++ e)
      targetPaths.cache) fun _ =>
  stepBind (removeAllStep env (Ev.wipeRemove targetPaths.daemon)
      (fun e => "Failed to remove \"" ++ targetPaths.daemon ++ "\": " ++ e)
      targetPaths.daemon) fun _ =>
  -- lines 379-390: move logs and cache
  stepBind (liftE [Ev.runCmd ["mv", sourcePaths.logs, targetPaths.logs]]
      (fun e => "Failed to move \"" ++ sourcePaths.logs ++ "\" to \""
        ++ targetPaths.logs ++ "\": " ++ e)
      (env.runCommand ["mv", sourcePaths.logs, targetPaths.logs])) fun _ =>
  stepBind (liftE [Ev.runCmd ["mv", sourcePaths.cache, targetPaths.cache]]
      (fun e => "Failed to move \"" ++ sourcePaths.cache ++ "\" to \""
        ++ targetPaths.cache ++ "\": " ++ e)
      (env.runCommand ["mv", sourcePaths.cache, targetPaths.cache])) fun _ =>
  -- lines 392-418
  stepBind (moveDaemonStep env sourcePaths targetPaths) fun _ =>
  -- lines 420-425
  stepBind (liftE [Ev.migrateDB (pathJoin targetPaths.daemon "database")]
      (fun e => "Failed to migrate database in \""
        ++ pathJoin targetPaths.daemon "database" ++ "\": " ++ e)
      env.migrateDatabase) fun _ =>
  -- lines 427-434: stage the SQL patch when there are statements
  stepBind
    (if rw.rewriteStatements.length > 0 then
       liftE [Ev.writePatch (pathJoin (pathJoin targetPaths.daemon "database") "patch.global.sql")
           (String.intercalate "\n" rw.rewriteStatements ++ "\n")]
         (fun e => "Failed to write database path: " ++ e)
         (env.writeFile (pathJoin (pathJoin targetPaths.daemon "database") "patch.global.sql")
           (String.intercalate "\n" rw.rewriteStatements ++ "\n"))
     else stepPure ()) fun _ =>
  -- lines 436-444: run the rewrite commands in order
  stepBind (if rewriteCommands.length > 0 then runCmds env rewriteCommands
      else stepPure ()) fun _ =>
  -- lines 446-459: cleanup of stale paths
  stepBind (let _ := env.removeFile (pathJoin targetPaths.daemon "backups");
      let _ := env.removeFile (pathJoin targetPaths.daemon "images");
      ([Ev.removeIgnored (pathJoin targetPaths.daemon "backups"),
        Ev.removeIgnored (pathJoin targetPaths.daemon "images")], .ok ())) fun _ =>
  stepBind (removeAllStep env (Ev.removeAllDir (pathJoin targetPaths.daemon "devices"))
      (fun e => "Failed to delete \"devices\": " ++ e)
      (pathJoin targetPaths.daemon "devices")) fun _ =>
  stepBind (removeAllStep env (Ev.removeAllDir (pathJoin targetPaths.daemon "devlxd"))
      (fun e => "Failed to delete \"devlxd\": " ++ e)
      (pathJoin targetPaths.daemon "devlxd")) fun _ =>
  stepBind (removeAllStep env (Ev.removeAllDir (pathJoin targetPaths.daemon "security"))
      (fun e => "Failed to delete \"security\": " ++ e)
      (pathJoin targetPaths.daemon "security")) fun _ =>
  stepBind (removeAllStep env (Ev.removeAllDir (pathJoin targetPaths.daemon "shmounts"))
      (fun e => "Failed to delete \"shmounts\": " ++ e)
      (pathJoin targetPaths.daemon "shmounts")) fun _ =>
  -- lines 461-494: symlink repair
  stepBind (cleanupSymlinkDirs env sourcePaths.daemon targetPaths.daemon
      ["containers", "containers-snapshots", "snapshots",
       "virtual-machines", "virtual-machines-snapshots"]) fun _ =>
  -- lines 496-501
  stepBind (liftE [Ev.startTarget]
      (fun e => "Failed to start the target server: " ++ e) env.tgtStart) fun _ =>
  -- lines 503-558: cluster handling: ask (primary only), warm-up sleep,
  -- then the convergence wait
  stepBind
    (if sc.2 = true then
       stepBind (if flags.clusterMember = false then askStartedLoop env 0 fuel
           else stepPure ()) fun _ =>
       stepBind ([Ev.sleepWarmup], .ok ()) fun _ =>
       convergeWait tc 0 fuel
     else stepPure ()) fun _ =>
  -- lines 560-565
  stepBind (liftE [Ev.validateTarget]
      (fun e => "Failed to get target server info: " ++ e) tc.getServerCheck) fun _ =>
  -- lines 567-589: cluster restore (primary only)
  stepBind
    (if flags.clusterMember = false ∧ sc.2 = true then
       match tc.getClusterMembersRestore with
       | .error _ => ([], .error (.fail "Failed to retrieve the list of cluster members"))
       | .ok members => restoreLoop tc members
     else stepPure ()) fun _ =>
  -- lines 591-601: uninstall confirmation; declining exits with code 1
  stepBind
    (if flags.yes = false then
       match env.askUninstall with
       | .error e => ([Ev.askUninstall], .error (.fail e))
       | .ok true => ([Ev.askUninstall], .ok ())
       | .ok false => ([Ev.askUninstall], .error (.exited 1))
     else stepPure ()) fun _ =>
  -- lines 603-610
  liftE [Ev.purgeSource]
    (fun e => "Failed to uninstall the source server: " ++ e) env.srcPurge

/-- `cmdMigrate.Run`: `stopResults` carries the results of `source.Stop()`
(line 344) and `target.Stop()` (line 351).  Lines 345-347 and 352-354 only
build a `fmt.Errorf` value from these results and discard it, so no other
expression of Run can depend on them; the model keeps them as an argument
of the run so that this independence can be stated. -/
def run (flags : Flags) (env : Env)
    (stopResults : Except String Unit × Except String Unit) (fuel : Nat) : Step Unit :=
  runBody flags env fuel

/-! ## Concrete environments for witnesses and counterexamples -/

/-- A source client whose every call succeeds, on a non-clustered server
with no OVN northbound connection. -/
def srcClientGood : SrcClientB :=
  { getServer := .ok ⟨false, none⟩,
    getServerOvn := .ok ⟨false, none⟩,
    getStoragePools := .ok [],
    getClusterMembersPools := .ok [],
    memberPoolNames := fun _ => .ok [],
    memberPool := fun _ _ => .error "no pool",
    getClusterMembersEvac := .ok [],
    evacuate := fun _ => .ok (),
    evacuateWait := fun _ => .ok () }

/-- A target client whose every call succeeds. -/
def tgtClientGood : TgtClientB :=
  { getClusterMembers := fun _ => .ok [],
    memberGetServer := fun _ _ => .ok "incus",
    getServerCheck := .ok (),
    getClusterMembersRestore := .ok [],
    restore := fun _ => .ok (),
    restoreWait := fun _ => .ok () }

/-- An environment in which every external call succeeds: one present
source and target, the usual lxd/incus path roots, no storage pools, no
symlinks to repair. -/
def goodEnv : Env :=
  { euidRoot := true,
    sourcesPresent := [true],
    targetsPresent := [true],
    srcConnect := .ok srcClientGood,
    srcPaths := .ok ⟨"/var/lib/lxd", "/var/log/lxd", "/var/cache/lxd"⟩,
    srcPurge := .ok (),
    validateRes := .ok (),
    tgtConnect := .ok tgtClientGood,
    tgtPaths := .ok ⟨"/var/lib/incus", "/var/log/incus", "/var/cache/incus"⟩,
    tgtStart := .ok (),
    ovsVsctlGet := .ok "",
    ovnConvert := fun _ _ => .ok [],
    ovsConvert := .ok [],
    askMigrate := .ok true,
    clusterNoEvacuate := false,
    removeAll := fun _ => .ok,
    runCommand := fun _ => .ok (),
    isMountPoint := fun _ => false,
    mkdirAll := fun _ => .ok (),
    mountBind := fun _ _ => .ok (),
    unmountDetach := fun _ => .ok (),
    migrateDatabase := .ok (),
    writeFile := fun _ _ => .ok (),
    readDir := fun _ => .notExist,
    readLink := fun _ => .error "not a symlink",
    removeFile := fun _ => .ok (),
    symlink := fun _ _ => .ok (),
    askStartedAll := fun _ => .ok true,
    askUninstall := .ok true }

/-- `goodEnv` with one already-repaired symlink: its target is under the
target root and contains no occurrence of the source root. -/
def repairedEnv : Env :=
  { goodEnv with
    readLink := fun _ => .ok "/var/lib/incus/storage-pools/default/containers/c1" }

/-! ## Claim theorems about the orchestrator -/

/-- C7: an error from `source.Stop()` or `target.Stop()` is not propagated
as Run's return value and does not abort the migration.  First conjunct:
the run's trace and outcome are independent of the two stop results, for
every flags/environment/fuel.  Second conjunct: with both stop calls
failing, a concrete successful run still performs both stops, proceeds to
the unmount and wipe phases and beyond, and returns nil. -/
theorem stopErrorsNotPropagated :
    (∀ (flags : Flags) (env : Env) (s1 s2 : Except String Unit) (fuel : Nat),
        run flags env (s1, s2) fuel = run flags env (.ok (), .ok ()) fuel)
    ∧ (∀ (s1 s2 : Except String Unit),
        (run ⟨true, false⟩ goodEnv (s1, s2) 3).2 = .ok ()
          ∧ Ev.stopSource ∈ (run ⟨true, false⟩ goodEnv (s1, s2) 3).1
          ∧ Ev.stopTarget ∈ (run ⟨true, false⟩ goodEnv (s1, s2) 3).1
          ∧ Ev.unmountPre (pathJoin "/var/lib/incus" "guestapi")
              ∈ (run ⟨true, false⟩ goodEnv (s1, s2) 3).1
          ∧ Ev.wipeRemove "/var/log/incus" ∈ (run ⟨true, false⟩ goodEnv (s1, s2) 3).1
          ∧ Ev.runCmd ["mv", "/var/lib/lxd", "/var/lib/incus"]
              ∈ (run ⟨true, false⟩ goodEnv (s1, s2) 3).1) := by
  constructor
  · intro flags env s1 s2 fuel
    rfl
  · intro s1 s2
    have h : run ⟨true, false⟩ goodEnv (s1, s2) 3
        = run ⟨true, false⟩ goodEnv (.ok (), .ok ()) 3 := rfl
    rw [h]
    exact ⟨rfl, by decide, by decide, by decide, by decide, by decide⟩

/-- C8: the Move-data branch for the daemon directory.  When the source
daemon directory is a mountpoint the step runs no `mv` (or any other
command) at all: it creates the target directory, bind-mounts the source
there, and lazily detaches the source.  When it is not a mountpoint the
step is exactly the `mv` and no bind mount happens. -/
theorem moveDaemonBindMountBranch :
    ∀ (env : Env) (sp tp : DaemonPaths),
      (env.isMountPoint sp.daemon = true →
        (∀ argv, Ev.runCmd argv ∉ (moveDaemonStep env sp tp).1)
          ∧ (env.mkdirAll tp.daemon = .ok () →
              env.mountBind sp.daemon tp.daemon = .ok () →
              env.unmountDetach sp.daemon = .ok () →
              moveDaemonStep env sp tp
                = ([Ev.mkdirAll tp.daemon, Ev.bindMount sp.daemon tp.daemon,
                    Ev.unmountDetach sp.daemon], .ok ())))
      ∧ (env.isMountPoint sp.daemon = false →
          (moveDaemonStep env sp tp).1 = [Ev.runCmd ["mv", sp.daemon, tp.daemon]]
            ∧ ∀ a b, Ev.bindMount a b ∉ (moveDaemonStep env sp tp).1) := by
  intro env sp tp
  constructor
  · intro h
    constructor
    · intro argv
      simp only [moveDaemonStep, h, if_true]
      cases h1 : env.mkdirAll tp.daemon with
      | error e => simp [liftE, stepBind, h1]
      | ok u =>
        cases h2 : env.mountBind sp.daemon tp.daemon with
        | error e => simp [liftE, stepBind, h1, h2]
        | ok v =>
          cases h3 : env.unmountDetach sp.daemon with
          | error e => simp [liftE, stepBind, h1, h2, h3]
          | ok w => simp [liftE, stepBind, h1, h2, h3]
    · intro h1 h2 h3
      simp [moveDaemonStep, h, liftE, stepBind, h1, h2, h3]
  · intro h
    constructor
    · simp only [moveDaemonStep, h, Bool.false_eq_true, if_false]
      cases h1 : env.runCommand ["mv", sp.daemon, tp.daemon] with
      | error e => simp [liftE, h1]
      | ok u => simp [liftE, h1]
    · intro a b
      simp only [moveDaemonStep, h, Bool.false_eq_true, if_false]
      cases h1 : env.runCommand ["mv", sp.daemon, tp.daemon] with
      | error e => simp [liftE, h1]
      | ok u => simp [liftE, h1]

/-- C9: symlink repair is idempotent.  If a symlink's current target
contains no occurrence of the source daemon root (it was already
rewritten), the repair step recreates the symlink pointing at the very
same target and returns no error. -/
theorem symlinkRepairIdempotent (env : Env) (sd td dirPath : String) (e : DirEntry)
    (t : String)
    (hsym : e.isSymlink = true)
    (hread : env.readLink (pathJoin dirPath e.name) = .ok t)
    (hnc : goContains t sd = false)
    (hrm : env.removeFile (pathJoin dirPath e.name) = .ok ())
    (hln : env.symlink t (pathJoin dirPath e.name) = .ok ()) :
    cleanupEntry env sd td dirPath e
      = ([Ev.readLinkEv (pathJoin dirPath e.name), Ev.removeFileEv (pathJoin dirPath e.name),
          Ev.symlinkEv t (pathJoin dirPath e.name)], .ok ()) := by
  have hrepl : goReplace1 t sd td = t := goReplace1_of_not_contains t sd td hnc
  simp [cleanupEntry, hsym, liftE, stepBind, hread, hrepl, hrm, hln]

/-- C9 witness: a concrete already-repaired symlink under the containers
directory is recreated with the identical target and no error. -/
theorem symlinkRepairIdempotent_witness :
    cleanupEntry repairedEnv "/var/lib/lxd" "/var/lib/incus" "/var/lib/incus/containers"
        ⟨"c1", true⟩
      = ([Ev.readLinkEv (pathJoin "/var/lib/incus/containers" "c1"),
          Ev.removeFileEv (pathJoin "/var/lib/incus/containers" "c1"),
          Ev.symlinkEv "/var/lib/incus/storage-pools/default/containers/c1"
            (pathJoin "/var/lib/incus/containers" "c1")], .ok ()) :=
  symlinkRepairIdempotent repairedEnv "/var/lib/lxd" "/var/lib/incus"
    "/var/lib/incus/containers" ⟨"c1", true⟩
    "/var/lib/incus/storage-pools/default/containers/c1" rfl rfl (by decide) rfl rfl

lemma roundReady_false_of_mem (g : String → Except String String)
    (members : List ClusterMemberStatus) (m : ClusterMemberStatus)
    (hm : m ∈ members) (h : memberCheck g m = false) :
    roundReady g members = false := by
  induction members with
  | nil => cases hm
  | cons a rest ih =>
    rcases List.mem_cons.mp hm with h1 | h1
    · subst h1
      simp [roundReady, h]
    · simp [roundReady, ih h1]

lemma convergeWait_retry (tc : TgtClientB) (n fuel : Nat) (h : convergeStep tc n = false) :
    convergeWait tc n (fuel + 1)
      = (Ev.pollRound n :: Ev.sleepRetry :: (convergeWait tc (n + 1) fuel).1,
         (convergeWait tc (n + 1) fuel).2) := by
  rcases hx : convergeWait tc (n + 1) fuel with ⟨t, r⟩
  simp [convergeWait, h, stepBind, hx]

/-- C5: the convergence health check accepts a member exactly when its
server info answers with the `incus` implementation identity and its
`(Status, Message)` pair is one of the two literal pairs; and a round
containing any member that fails the check is rejected — the loop sleeps
and polls the next round instead of finishing. -/
theorem convergeHealthCheckExact :
    (∀ (g : String → Except String String) (m : ClusterMemberStatus),
        memberCheck g m = true ↔
          (g m.serverName = .ok "incus"
            ∧ ((m.status = "Evacuated" ∧ m.message = "Unavailable due to maintenance")
              ∨ (m.status = "Online" ∧ m.message = "Fully operational"))))
    ∧ (∀ (tc : TgtClientB) (n fuel : Nat) (members : List ClusterMemberStatus)
          (m : ClusterMemberStatus),
        tc.getClusterMembers n = .ok members → m ∈ members →
        memberCheck (tc.memberGetServer n) m = false →
        convergeStep tc n = false
          ∧ convergeWait tc n (fuel + 1)
              = (Ev.pollRound n :: Ev.sleepRetry :: (convergeWait tc (n + 1) fuel).1,
                 (convergeWait tc (n + 1) fuel).2)) := by
  constructor
  · intro g m
    unfold memberCheck
    cases hh : g m.serverName with
    | error e => simp [hh]
    | ok impl =>
      by_cases h1 : impl = "incus"
      · subst h1
        by_cases h2 : m.status = "Evacuated" ∧ m.message = "Unavailable due to maintenance"
        · simp [h2]
        · by_cases h3 : m.status = "Online" ∧ m.message = "Fully operational"
          · simp [h2, h3]
          · simp [h2, h3]
      · simp [h1]
  · intro tc n fuel members m hfetch hm hbad
    have hstep : convergeStep tc n = false := by
      unfold convergeStep
      rw [hfetch]
      exact roundReady_false_of_mem _ members m hm hbad
    exact ⟨hstep, convergeWait_retry tc n fuel hstep⟩

lemma convergeWait_ok_iff (tc : TgtClientB) :
    ∀ (fuel s : Nat), (convergeWait tc s fuel).2 = .ok ()
      ↔ ∃ n, s ≤ n ∧ n < s + fuel ∧ convergeStep tc n = true := by
  intro fuel
  induction fuel with
  | zero =>
    intro s
    constructor
    · intro h
      exact absurd h (by simp [convergeWait])
    · rintro ⟨n, h1, h2, _⟩
      omega
  | succ fuel ih =>
    intro s
    by_cases h : convergeStep tc s = true
    · constructor
      · intro _
        exact ⟨s, Nat.le_refl s, by omega, h⟩
      · intro _
        simp [convergeWait, h]
    · have hstep : (convergeWait tc s (fuel + 1)).2 = (convergeWait tc (s + 1) fuel).2 := by
        rw [convergeWait_retry tc s fuel (by simpa using h)]
      rw [hstep, ih (s + 1)]
      constructor
      · rintro ⟨n, h1, h2, h3⟩
        exact ⟨n, by omega, by omega, h3⟩
      · rintro ⟨n, h1, h2, h3⟩
        rcases Nat.eq_or_lt_of_le h1 with he | hl
        · rw [← he] at h3
          exact absurd h3 h
        · exact ⟨n, by omega, by omega, h3⟩

/-- C6: the convergence wait cannot fail.  Its only outcomes are success
or "still looping at the observation horizon" (`Halt.fuelOut`, which the
code itself can never produce: there is no retry bound); starting at round
0 it succeeds within `fuel` rounds exactly when some round below `fuel`
passes — i.e. it terminates only when a round in which every member passes
is observed, and a failed member-list fetch merely makes that round fail,
triggering another sleep-and-retry. -/
theorem convergeWaitNeverErrors :
    (∀ (tc : TgtClientB) (fuel s : Nat),
        (convergeWait tc s fuel).2 = .ok ()
          ∨ (convergeWait tc s fuel).2 = .error Halt.fuelOut)
    ∧ (∀ (tc : TgtClientB) (fuel : Nat),
        (convergeWait tc 0 fuel).2 = .ok () ↔ ∃ n, n < fuel ∧ convergeStep tc n = true)
    ∧ (∀ (tc : TgtClientB) (n : Nat) (e : String),
        tc.getClusterMembers n = .error e → convergeStep tc n = false) := by
  refine ⟨?_, ?_, ?_⟩
  · intro tc fuel
    induction fuel with
    | zero => intro s; right; rfl
    | succ fuel ih =>
      intro s
      by_cases h : convergeStep tc s = true
      · left
        simp [convergeWait, h]
      · rw [convergeWait_retry tc s fuel (by simpa using h)]
        exact ih (s + 1)
  · intro tc fuel
    rw [convergeWait_ok_iff tc fuel 0]
    constructor
    · rintro ⟨n, _, h2, h3⟩
      exact ⟨n, by omega, h3⟩
    · rintro ⟨n, h1, h2⟩
      exact ⟨n, by omega, by omega, h2⟩
  · intro tc n e h
    unfold convergeStep
    rw [h]

/-- Shared evaluation of a `--cluster-member` (secondary) invocation: with
the daemons discoverable, the target connectable and the paths readable,
the run skips source connection, Validate and the storage-pool rewrite
gathering, and then reaches the unguarded `srcClient.GetServer()` of
main.go line 241 with `srcClient` still nil, panicking before the Stop
phase. -/
lemma run_clusterMember_eval (flags : Flags) (env : Env)
    (stops : Except String Unit × Except String Unit) (fuel : Nat)
    (tcl : TgtClientB) (sp tp : DaemonPaths)
    (hcm : flags.clusterMember = true)
    (hroot : env.euidRoot = true)
    (hsrc : firstPresent env.sourcesPresent = true)
    (htgt : firstPresent env.targetsPresent = true)
    (htc : env.tgtConnect = .ok tcl)
    (hsp : env.srcPaths = .ok sp)
    (htp : env.tgtPaths = .ok tp) :
    run flags env stops fuel
      = ([Ev.lookSource, Ev.lookTarget, Ev.connectTarget, Ev.pathsSource, Ev.pathsTarget,
          Ev.srcGetServerOvn], .error (.panicked "srcClient.GetServer")) := by
  show runBody flags env fuel = _
  simp [runBody, hcm, hroot, hsrc, htgt, htc, hsp, htp, stepBind, stepPure, liftE]

/-- C2 (amended): with `--cluster-member` set, the orchestrator skips
Validate, the storage-pool rewrite gathering, the migration confirmation
and Evacuate (and never reaches Restore), but it does not skip the OVS/OVN
gathering step: after Discover, Connect(target) and path resolution it
calls `GetServer` on the never-connected nil source client and the run
aborts with a panic before the Stop phase, so Stop, Wipe, Move,
Migrate-DB, Cleanup, Start and Validate-target are not reached either. -/
theorem clusterMemberSkipsAndPanics (flags : Flags) (env : Env)
    (stops : Except String Unit × Except String Unit) (fuel : Nat)
    (tcl : TgtClientB) (sp tp : DaemonPaths)
    (hcm : flags.clusterMember = true)
    (hroot : env.euidRoot = true)
    (hsrc : firstPresent env.sourcesPresent = true)
    (htgt : firstPresent env.targetsPresent = true)
    (htc : env.tgtConnect = .ok tcl)
    (hsp : env.srcPaths = .ok sp)
    (htp : env.tgtPaths = .ok tp) :
    run flags env stops fuel
      = ([Ev.lookSource, Ev.lookTarget, Ev.connectTarget, Ev.pathsSource, Ev.pathsTarget,
          Ev.srcGetServerOvn], .error (.panicked "srcClient.GetServer"))
      ∧ Ev.validate ∉ (run flags env stops fuel).1
      ∧ Ev.gatherPools ∉ (run flags env stops fuel).1
      ∧ Ev.askMigrate ∉ (run flags env stops fuel).1
      ∧ (∀ m, Ev.evacuateMember m ∉ (run flags env stops fuel).1)
      ∧ Ev.stopSource ∉ (run flags env stops fuel).1 := by
  have h := run_clusterMember_eval flags env stops fuel tcl sp tp hcm hroot hsrc htgt htc hsp htp
  rw [h]
  refine ⟨rfl, by decide, by decide, by decide, fun m => by simp, by decide⟩

/-- C2, counterexample to the claim as stated: a concrete secondary
invocation in a fully healthy environment does not perform the Stop (nor
Wipe, Move, Migrate-DB, Cleanup, Start, Validate-target) phase — it
panics on the nil source client first, and also never reaches the phases
after Stop that the claim says it performs. -/
theorem clusterMemberSkips_counterexample :
    (run ⟨false, true⟩ goodEnv (.ok (), .ok ()) 3).2
        = .error (.panicked "srcClient.GetServer")
      ∧ Ev.stopSource ∉ (run ⟨false, true⟩ goodEnv (.ok (), .ok ()) 3).1
      ∧ Ev.wipeRemove "/var/log/incus" ∉ (run ⟨false, true⟩ goodEnv (.ok (), .ok ()) 3).1
      ∧ Ev.startTarget ∉ (run ⟨false, true⟩ goodEnv (.ok (), .ok ()) 3).1
      ∧ Ev.validateTarget ∉ (run ⟨false, true⟩ goodEnv (.ok (), .ok ()) 3).1 := by
  exact ⟨rfl, by decide, by decide, by decide, by decide⟩

/-- C2 witness: the amended statement instantiated at the concrete healthy
environment. -/
theorem clusterMemberSkipsAndPanics_witness :
    run ⟨false, true⟩ goodEnv (.ok (), .ok ()) 3
      = ([Ev.lookSource, Ev.lookTarget, Ev.connectTarget, Ev.pathsSource, Ev.pathsTarget,
          Ev.srcGetServerOvn], .error (.panicked "srcClient.GetServer"))
      ∧ Ev.validate ∉ (run ⟨false, true⟩ goodEnv (.ok (), .ok ()) 3).1
      ∧ Ev.gatherPools ∉ (run ⟨false, true⟩ goodEnv (.ok (), .ok ()) 3).1
      ∧ Ev.askMigrate ∉ (run ⟨false, true⟩ goodEnv (.ok (), .ok ()) 3).1
      ∧ (∀ m, Ev.evacuateMember m ∉ (run ⟨false, true⟩ goodEnv (.ok (), .ok ()) 3).1)
      ∧ Ev.stopSource ∉ (run ⟨false, true⟩ goodEnv (.ok (), .ok ()) 3).1 :=
  clusterMemberSkipsAndPanics ⟨false, true⟩ goodEnv (.ok (), .ok ()) 3 tgtClientGood
    ⟨"/var/lib/lxd", "/var/log/lxd", "/var/cache/lxd"⟩
    ⟨"/var/lib/incus", "/var/log/incus", "/var/cache/incus"⟩
    rfl rfl rfl rfl rfl rfl rfl

/-- C10: on every secondary (`--cluster-member`) invocation that gets past
discovery, target connection and path resolution, the source client is
never connected (no `connectSource` action ever happens), yet the run's
last action is the unguarded `srcClient.GetServer()` call of the OVS/OVN
gathering step, performed before any Stop action — a method call on the
nil source client, which panics. -/
theorem nilSourceClientReachable (flags : Flags) (env : Env)
    (stops : Except String Unit × Except String Unit) (fuel : Nat)
    (tcl : TgtClientB) (sp tp : DaemonPaths)
    (hcm : flags.clusterMember = true)
    (hroot : env.euidRoot = true)
    (hsrc : firstPresent env.sourcesPresent = true)
    (htgt : firstPresent env.targetsPresent = true)
    (htc : env.tgtConnect = .ok tcl)
    (hsp : env.srcPaths = .ok sp)
    (htp : env.tgtPaths = .ok tp) :
    Ev.connectSource ∉ (run flags env stops fuel).1
      ∧ (run flags env stops fuel).1.getLast? = some Ev.srcGetServerOvn
      ∧ Ev.stopSource ∉ (run flags env stops fuel).1
      ∧ (run flags env stops fuel).2 = .error (.panicked "srcClient.GetServer") := by
  have h := run_clusterMember_eval flags env stops fuel tcl sp tp hcm hroot hsrc htgt htc hsp htp
  rw [h]
  exact ⟨by decide, rfl, by decide, rfl⟩

/-- C10 witness: the nil-client call is reached in the concrete healthy
environment. -/
theorem nilSourceClientReachable_witness :
    Ev.connectSource ∉ (run ⟨false, true⟩ goodEnv (.ok (), .ok ()) 4).1
      ∧ (run ⟨false, true⟩ goodEnv (.ok (), .ok ()) 4).1.getLast? = some Ev.srcGetServerOvn
      ∧ Ev.stopSource ∉ (run ⟨false, true⟩ goodEnv (.ok (), .ok ()) 4).1
      ∧ (run ⟨false, true⟩ goodEnv (.ok (), .ok ()) 4).2
          = .error (.panicked "srcClient.GetServer") :=
  nilSourceClientReachable ⟨false, true⟩ goodEnv (.ok (), .ok ()) 4 tgtClientGood
    ⟨"/var/lib/lxd", "/var/log/lxd", "/var/cache/lxd"⟩
    ⟨"/var/lib/incus", "/var/log/incus", "/var/cache/incus"⟩
    rfl rfl rfl rfl rfl rfl rfl

end LxdToIncus
